import Mathlib

/-!
Verification of the invoice generator core (build.go) against its design
specification. Money amounts are modelled as exact rationals: the code uses
arbitrary-precision base-10 decimals and the spec requires exact arithmetic,
so every add, sub and mul is exact; a division whose divisor may be zero is
modelled as an Option, since the decimal library faults on a zero divisor.
-/

namespace Generator

/-- Modelled from the spec: Discount is a tagged variant Percent | Amount
(the Discount struct and its getDiscount accessor are not under src/). -/
inductive Discount where
  | percent (p : ℚ)
  | amount (a : ℚ)
deriving DecidableEq, Repr

/-- Modelled from the spec: Tax has the same variant shape as Discount
(the Tax struct and its getTax accessor are not under src/). -/
inductive Tax where
  | percent (p : ℚ)
  | amount (a : ℚ)
deriving DecidableEq, Repr

/-- Modelled from the spec: getDiscount returns the variant tag and number,
as used by appendTotal in build.go. -/
def Discount.getDiscount : Discount → String × ℚ
  | .percent p => ("percent", p)
  | .amount a => ("amount", a)

/-- Modelled from the spec: getTax returns the variant tag and number. -/
def Tax.getTax : Tax → String × ℚ
  | .percent p => ("percent", p)
  | .amount a => ("amount", a)

/-- Modelled from the spec: a variant resolves against a base amount:
Percent(p) gives base * p / 100, Amount(a) gives a. -/
def Discount.resolve (d : Discount) (base : ℚ) : ℚ :=
  match d with
  | .percent p => base * p / 100
  | .amount a => a

/-- Modelled from the spec: tax resolution follows the same rule as
discount resolution. -/
def Tax.resolve (t : Tax) (base : ℚ) : ℚ :=
  match t with
  | .percent p => base * p / 100
  | .amount a => a

/-- Modelled from the spec: a line item owns quantity, unit price, an
optional discount and an optional tax reference (the Item struct is not
under src/). -/
structure Item where
  quantity : ℚ
  unitPrice : ℚ
  discount : Option Discount
  tax : Option Tax
deriving DecidableEq, Repr

/-- Modelled from the spec: subtotal is quantity times unit price. -/
def Item.subtotal (i : Item) : ℚ :=
  i.quantity * i.unitPrice

/-- Modelled from the spec: subtotal minus the resolved item discount when
the discount is set, else the subtotal. -/
def Item.totalWithoutTaxAndWithDiscount (i : Item) : ℚ :=
  match i.discount with
  | none => i.subtotal
  | some d => i.subtotal - d.resolve i.subtotal

/-- Modelled from the spec: the item tax resolved against the item total
after the item discount; zero when the item has no resolved tax. -/
def Item.taxWithDiscount (i : Item) : ℚ :=
  match i.tax with
  | none => 0
  | some t => t.resolve i.totalWithoutTaxAndWithDiscount

/-- Division as performed by the decimal library: faults (returns none)
when the divisor is zero. -/
def decDiv (a b : ℚ) : Option ℚ :=
  if b = 0 then none else some (a / b)

/-- The four headline numbers computed by appendTotal in build.go. -/
structure Totals where
  total : ℚ
  totalWithDiscount : ℚ
  totalTax : ℚ
  totalWithTax : ℚ
deriving DecidableEq, Repr

/-- Pre-discount sum of item totals, from the first loop of appendTotal:
total starts at 0 and each item total is added. -/
def docTotal (items : List Item) : ℚ :=
  items.foldl (fun acc it => acc + it.totalWithoutTaxAndWithDiscount) 0

/-- The totalWithDiscount variable of appendTotal: initialized to 0 and
assigned only when a document discount is present; amount discounts are
subtracted, percent discounts subtract total * (p / 100). -/
def docTotalWithDiscount (items : List Item) (discount : Option Discount) : ℚ :=
  let total := docTotal items
  match discount with
  | none => 0
  | some disc =>
    let disc2 := disc.getDiscount
    if disc2.1 = "amount" then total - disc2.2
    else total - total * (disc2.2 / 100)

/-- The discountPercent value of appendTotal: the percent number directly,
or for an amount discount the amount times 100 divided by the discounted
total (a decimal division that faults when the divisor is zero). -/
def docDiscountPercent (items : List Item) (disc : Discount) : Option ℚ :=
  let disc2 := disc.getDiscount
  if disc2.1 = "amount" then
    decDiv (disc2.2 * 100) (docTotalWithDiscount items (some disc))
  else some disc2.2

/-- One item contribution to totalTax in the document-discount branch of
appendTotal: amount taxes pass through; percent taxes are recomputed on the
item total reduced by the effective discount percent; items without a
resolved tax contribute nothing. -/
def itemTaxContribution (dp : ℚ) (it : Item) : ℚ :=
  match it.tax with
  | none => 0
  | some t =>
    let t2 := t.getTax
    if t2.1 = "amount" then t2.2
    else
      let itemTotal := it.totalWithoutTaxAndWithDiscount
      let toSub := dp * itemTotal / 100
      let itemTotalDiscounted := itemTotal - toSub
      t2.2 * itemTotalDiscounted / 100

/-- The totalTax computation of appendTotal: without a document discount it
sums the item taxWithDiscount values; with one it derives discountPercent
(possibly faulting) and sums the per-item contributions. -/
def docTotalTax (items : List Item) (discount : Option Discount) : Option ℚ :=
  match discount with
  | none => some (items.foldl (fun acc it => acc + it.taxWithDiscount) 0)
  | some disc =>
    match docDiscountPercent items disc with
    | none => none
    | some dp => some (items.foldl (fun acc it => acc + itemTaxContribution dp it) 0)

/-- The full appendTotal computation from build.go: the pre-discount total,
the discounted total, the total tax and the grand total (totalWithTax is
total plus tax without a document discount, discounted total plus tax with
one). Returns none exactly when the decimal division in the discountPercent
derivation faults. -/
def computeTotals (items : List Item) (discount : Option Discount) : Option Totals :=
  let total := docTotal items
  let totalWithDiscount := docTotalWithDiscount items discount
  match docTotalTax items discount with
  | none => none
  | some totalTax =>
    let totalWithTax :=
      match discount with
      | none => total + totalTax
      | some _ => totalWithDiscount + totalTax
    some ⟨total, totalWithDiscount, totalTax, totalWithTax⟩

/-- Errors returned by Build in build.go: the validation error from
Validate (modelled from the spec: Validate is not under src/; the document
structural requirement is a non-empty item list). -/
inductive DocError where
  | validationError
deriving DecidableEq, Repr

/-- The document aggregate: items, optional document discount, optional
default tax, the date string and the notes string (fields read by the
build.go functions under verification). -/
structure Document where
  items : List Item
  discount : Option Discount
  defaultTax : Option Tax
  date : String
  notes : String
deriving DecidableEq, Repr

/-- Modelled from the spec: Validate fails when the item list is empty,
before any layout work (the Validate function is not under src/). -/
def Document.validate (d : Document) : Option DocError :=
  if d.items = [] then some DocError.validationError else none

/-- The default-tax resolution performed in the item loop of appendItems:
an item whose tax is unset receives the document default tax. -/
def resolveItemTax (defaultTax : Option Tax) (it : Item) : Item :=
  match it.tax with
  | none => { it with tax := defaultTax }
  | some _ => it

/-- The date string rendered by appendMetas: the document date when it is
non-empty, else the formatted current time. -/
def appendMetasDate (docDate now : String) : String :=
  if docDate.length > 0 then docDate else now

/-- Abstraction of the produced rendering surface: the data Build writes
that depends on the document (the metadata date string and the computed
headline totals; none in totals marks a decimal-division fault). -/
structure PdfModel where
  metaDate : String
  totals : Option Totals
deriving DecidableEq, Repr

/-- The Build pipeline of build.go restricted to its document-dependent
data: validate first and return (nil, error) on failure; otherwise resolve
default taxes as appendItems does, render the metas date and compute the
totals. The pair mirrors the two Go return values. -/
def build (d : Document) (now : String) : Option PdfModel × Option DocError :=
  match d.validate with
  | some e => (none, some e)
  | none =>
    let ritems := d.items.map (resolveItemTax d.defaultTax)
    (some ⟨appendMetasDate d.date now, computeTotals ritems d.discount⟩, none)

/-- Events emitted by the item-rendering loop of appendItems: an item row
(with its extra cursor advance from text wrapping), a page break, and the
re-emission of the table column headers. -/
inductive RenderEvent where
  | row (wrap : ℚ)
  | pageBreak
  | header
deriving DecidableEq, Repr

/-- The item loop of appendItems as an event trace. Each row advances the
cursor by its wrap height; if the cursor then exceeds the maximum page
height, a page is added (cursor at the top margin) and the table headers
are redrawn (drawsTableTitles advances the cursor by 5); in both cases the
loop then advances the cursor by the fixed row gap of 6. -/
def appendItemsTrace (maxH topY : ℚ) : List ℚ → ℚ → List RenderEvent
  | [], _ => []
  | w :: ws, y =>
    let y1 := y + w
    if y1 > maxH then
      RenderEvent.row w :: RenderEvent.pageBreak :: RenderEvent.header ::
        appendItemsTrace maxH topY ws (topY + 5 + 6)
    else
      RenderEvent.row w :: appendItemsTrace maxH topY ws (y1 + 6)

/-- Spec-side count of threshold crossings: a crossing happens when
rendering a row leaves the cursor beyond the page threshold, after which
rendering continues from the top of a fresh page. -/
def thresholdCrossings (maxH topY : ℚ) : List ℚ → ℚ → Nat
  | [], _ => 0
  | w :: ws, y =>
    if y + w > maxH then 1 + thresholdCrossings maxH topY ws (topY + 5 + 6)
    else thresholdCrossings maxH topY ws (y + w + 6)

/-- Number of page breaks in a trace. -/
def countPageBreaks (t : List RenderEvent) : Nat :=
  t.countP (fun e => e = RenderEvent.pageBreak)

/-- True when every page break in the trace is immediately followed by the
header event, so the column headers reappear before any further row. -/
def breaksHeadered : List RenderEvent → Bool
  | [] => true
  | RenderEvent.pageBreak :: rest =>
    match rest with
    | RenderEvent.header :: _ => breaksHeadered rest
    | _ => false
  | _ :: rest => breaksHeadered rest

/-- The totals block height as stated by the spec: a fixed height of 30
plus 15 more when a document discount is present. -/
def totalsBlockHeight (hasDiscount : Bool) : ℚ :=
  30 + (if hasDiscount then 15 else 0)

/-- The offset Build computes before the totals block: the current cursor
plus 30, plus 15 more when the document has a discount. -/
def buildTotalsOffset (y : ℚ) (hasDiscount : Bool) : ℚ :=
  let offset := y + 30
  if hasDiscount then offset + 15 else offset

/-- The page-break decision Build takes before the totals block: break
exactly when the computed offset exceeds the maximum page height. -/
def buildForcesPageBreak (maxH y : ℚ) (hasDiscount : Bool) : Bool :=
  decide (buildTotalsOffset y hasDiscount > maxH)

/-- The cursor effect of appendNotes: empty notes return at once; else the
entry cursor is saved, the notes body is rendered 10 below it with some
rendered height, and the saved cursor is restored on exit. -/
def appendNotesCursor (notes : String) (htmlHeight : ℚ) (y : ℚ) : ℚ :=
  if notes.length = 0 then y
  else
    let currentY := y
    let yBody := currentY + 10
    let _yAfterBody := yBody + htmlHeight
    currentY

/-! Theorems -/

/-- Folding addition of a projected value over a list equals the starting
value plus the sum of the projections. -/
theorem foldl_add_map_sum {α : Type} (f : α → ℚ) (l : List α) (a : ℚ) :
    l.foldl (fun acc x => acc + f x) a = a + (l.map f).sum := by
  induction l generalizing a with
  | nil => simp
  | cons x xs ih => simp [ih]; ring

/-- C1: the claim says the effective discount percentage is defined as zero
when the denominator (the discounted total for an Amount discount) is zero,
so totals computation never propagates a division fault. The code has no
such guard: at one item of quantity 1 and unit price 100 with a document
discount Amount(100), the discounted total is 0 and the decimal division in
the discountPercent derivation faults, so the totals computation faults. -/
theorem c1_zero_denominator_division_fault :
    computeTotals [⟨1, 100, none, some (Tax.percent 20)⟩]
      (some (Discount.amount 100)) = none := by
  simp [computeTotals, docTotalTax, docDiscountPercent, docTotalWithDiscount,
    docTotal, decDiv, Discount.getDiscount, Item.totalWithoutTaxAndWithDiscount,
    Item.subtotal]

/-- C2: with a document discount whose effective percentage resolves to dp,
each item contributes to totalTax its flat tax amount when its resolved tax
is Amount-typed, and taxPercent * (itemTotal - dp*itemTotal/100) / 100 when
Percent-typed (zero with no resolved tax); totalTax is the sum of these
contributions, and an Amount-typed contribution equals the item
taxWithDiscount used without a document discount, hence is unaffected. -/
theorem c2_document_discount_tax_contributions
    (items : List Item) (disc : Discount) (dp : ℚ) (it : Item) (a : ℚ)
    (hdp : docDiscountPercent items disc = some dp)
    (hit : it.tax = some (Tax.amount a)) :
    (computeTotals items (some disc)).map Totals.totalTax =
      some ((items.map (fun j =>
        match j.tax with
        | none => 0
        | some (Tax.amount b) => b
        | some (Tax.percent t) =>
          t * (j.totalWithoutTaxAndWithDiscount -
            dp * j.totalWithoutTaxAndWithDiscount / 100) / 100)).sum)
    ∧ itemTaxContribution dp it = it.taxWithDiscount := by
  constructor
  · have hfun : (fun j => itemTaxContribution dp j) = (fun j =>
        match j.tax with
        | none => (0 : ℚ)
        | some (Tax.amount b) => b
        | some (Tax.percent t) =>
          t * (j.totalWithoutTaxAndWithDiscount -
            dp * j.totalWithoutTaxAndWithDiscount / 100) / 100) := by
      funext j
      cases hj : j.tax with
      | none => simp [itemTaxContribution, hj]
      | some t =>
        cases t with
        | percent p => simp [itemTaxContribution, hj, Tax.getTax]
        | amount b => simp [itemTaxContribution, hj, Tax.getTax]
    simp only [computeTotals, docTotalTax, hdp, Option.map_some]
    rw [foldl_add_map_sum (fun j => itemTaxContribution dp j) items 0]
    rw [hfun]
    simp
  · simp [itemTaxContribution, Item.taxWithDiscount, hit, Tax.getTax, Tax.resolve]

/-- C2 witness at the spec scenario: one item of quantity 2 and unit price
100 with Percent(20) tax and a document discount Amount(50) gives an
effective discount percentage of 100/3. -/
theorem c2_document_discount_tax_contributions_witness :
    (docDiscountPercent [⟨2, 100, none, some (Tax.percent 20)⟩]
        (Discount.amount 50) = some (100 / 3)
      ∧ (⟨1, 5, none, some (Tax.amount 7)⟩ : Item).tax = some (Tax.amount 7))
    ∧ ((computeTotals [⟨2, 100, none, some (Tax.percent 20)⟩]
          (some (Discount.amount 50))).map Totals.totalTax =
        some (([⟨2, 100, none, some (Tax.percent 20)⟩] : List Item).map (fun j =>
          match j.tax with
          | none => 0
          | some (Tax.amount b) => b
          | some (Tax.percent t) =>
            t * (j.totalWithoutTaxAndWithDiscount -
              (100 / 3) * j.totalWithoutTaxAndWithDiscount / 100) / 100)).sum
      ∧ itemTaxContribution (100 / 3) ⟨1, 5, none, some (Tax.amount 7)⟩ =
          (⟨1, 5, none, some (Tax.amount 7)⟩ : Item).taxWithDiscount) :=
  ⟨⟨by norm_num [docDiscountPercent, docTotalWithDiscount, docTotal, decDiv,
      Discount.getDiscount, Item.totalWithoutTaxAndWithDiscount, Item.subtotal],
    rfl⟩,
    c2_document_discount_tax_contributions
      [⟨2, 100, none, some (Tax.percent 20)⟩] (Discount.amount 50) (100 / 3)
      ⟨1, 5, none, some (Tax.amount 7)⟩ 7
      (by norm_num [docDiscountPercent, docTotalWithDiscount, docTotal, decDiv,
        Discount.getDiscount, Item.totalWithoutTaxAndWithDiscount, Item.subtotal])
      rfl⟩

/-- C3: with an Amount(a) document discount the discounted total is
total - a and the derived effective percentage is a*100 divided by the
discounted total (not the original total); with a Percent(p) discount the
discounted total is total - total*p/100 and the percentage is p itself. -/
theorem c3_discount_resolution
    (items : List Item) (a p : ℚ) (h : docTotal items - a ≠ 0) :
    docTotalWithDiscount items (some (Discount.amount a)) = docTotal items - a
    ∧ (computeTotals items (some (Discount.amount a))).map Totals.totalWithDiscount =
        some (docTotal items - a)
    ∧ docDiscountPercent items (Discount.amount a) =
        some (a * 100 / (docTotal items - a))
    ∧ docTotalWithDiscount items (some (Discount.percent p)) =
        docTotal items - docTotal items * p / 100
    ∧ docDiscountPercent items (Discount.percent p) = some p := by
  have hwd : docTotalWithDiscount items (some (Discount.amount a)) =
      docTotal items - a := by
    simp [docTotalWithDiscount, Discount.getDiscount]
  have hdp : docDiscountPercent items (Discount.amount a) =
      some (a * 100 / (docTotal items - a)) := by
    simp [docDiscountPercent, Discount.getDiscount, decDiv, hwd, h]
  refine ⟨hwd, ?_, hdp, ?_, ?_⟩
  · simp [computeTotals, docTotalTax, hdp, hwd]
  · simp [docTotalWithDiscount, Discount.getDiscount]; ring
  · simp [docDiscountPercent, Discount.getDiscount]

/-- C3 witness: one item of quantity 2 and unit price 100 with an
Amount(50) document discount has a nonzero discounted total of 150. -/
theorem c3_discount_resolution_witness :
    docTotal [⟨2, 100, none, some (Tax.percent 20)⟩] - 50 ≠ 0
    ∧ (docTotalWithDiscount [⟨2, 100, none, some (Tax.percent 20)⟩]
          (some (Discount.amount 50)) =
        docTotal [⟨2, 100, none, some (Tax.percent 20)⟩] - 50
      ∧ (computeTotals [⟨2, 100, none, some (Tax.percent 20)⟩]
            (some (Discount.amount 50))).map Totals.totalWithDiscount =
          some (docTotal [⟨2, 100, none, some (Tax.percent 20)⟩] - 50)
      ∧ docDiscountPercent [⟨2, 100, none, some (Tax.percent 20)⟩]
            (Discount.amount 50) =
          some (50 * 100 / (docTotal [⟨2, 100, none, some (Tax.percent 20)⟩] - 50))
      ∧ docTotalWithDiscount [⟨2, 100, none, some (Tax.percent 20)⟩]
            (some (Discount.percent 20)) =
          docTotal [⟨2, 100, none, some (Tax.percent 20)⟩] -
            docTotal [⟨2, 100, none, some (Tax.percent 20)⟩] * 20 / 100
      ∧ docDiscountPercent [⟨2, 100, none, some (Tax.percent 20)⟩]
            (Discount.percent 20) = some 20) :=
  ⟨by norm_num [docTotal, Item.totalWithoutTaxAndWithDiscount, Item.subtotal],
    c3_discount_resolution [⟨2, 100, none, some (Tax.percent 20)⟩] 50 20
      (by norm_num [docTotal, Item.totalWithoutTaxAndWithDiscount, Item.subtotal])⟩

/-- C4: with no document discount the grand total equals the sum over the
items of totalWithoutTaxAndWithDiscount plus the sum over the items of
taxWithDiscount. -/
theorem c4_no_discount_grand_total (items : List Item) :
    (computeTotals items none).map Totals.totalWithTax =
      some ((items.map Item.totalWithoutTaxAndWithDiscount).sum +
        (items.map Item.taxWithDiscount).sum) := by
  simp [computeTotals, docTotalTax, docTotal,
    foldl_add_map_sum Item.totalWithoutTaxAndWithDiscount items 0,
    foldl_add_map_sum Item.taxWithDiscount items 0]

/-- C5 counterexample: for one item of quantity 1 and unit price 100 with
no document discount, the computed totalWithDiscount value is 0, not the
pre-discount total of 100. -/
theorem c5_no_discount_counterexample :
    (computeTotals [⟨1, 100, none, none⟩] none).map Totals.totalWithDiscount ≠
      some (docTotal [⟨1, 100, none, none⟩]) := by
  norm_num [computeTotals, docTotalTax, docTotalWithDiscount, docTotal,
    Item.totalWithoutTaxAndWithDiscount, Item.subtotal, Item.taxWithDiscount]

/-- C5 amended: with no document discount the totalWithDiscount value stays
at its initialization of 0 and is never used; the grand total is computed
directly from the pre-discount total as total plus totalTax. -/
theorem c5_no_discount_total_with_discount (items : List Item) :
    (computeTotals items none).map Totals.totalWithDiscount = some 0
    ∧ (computeTotals items none).map Totals.totalWithTax =
        some (docTotal items + (items.map Item.taxWithDiscount).sum) := by
  refine ⟨?_, ?_⟩ <;>
    simp [computeTotals, docTotalTax, docTotalWithDiscount,
      foldl_add_map_sum Item.taxWithDiscount items 0]

/-- C6: the item loop emits exactly one page break per threshold crossing
(a row whose rendering pushes the cursor beyond the maximum page height),
and every page break is immediately followed by the re-emission of the
table column headers, before any further row. -/
theorem c6_pagination_breaks_and_headers (maxH topY : ℚ) (ws : List ℚ) (y : ℚ) :
    countPageBreaks (appendItemsTrace maxH topY ws y) =
      thresholdCrossings maxH topY ws y
    ∧ breaksHeadered (appendItemsTrace maxH topY ws y) = true := by
  induction ws generalizing y with
  | nil =>
    simp [appendItemsTrace, thresholdCrossings, countPageBreaks, breaksHeadered]
  | cons w ws ih =>
    by_cases hc : y + w > maxH
    · have ih1 := (ih (topY + 5 + 6)).1
      have ih2 := (ih (topY + 5 + 6)).2
      simp only [countPageBreaks] at ih1
      refine ⟨?_, ?_⟩
      · simp only [countPageBreaks]
        simp [appendItemsTrace, hc, thresholdCrossings, ih1]
        try omega
      · simp [appendItemsTrace, hc, breaksHeadered, ih2]
    · have ih1 := (ih (y + w + 6)).1
      have ih2 := (ih (y + w + 6)).2
      simp only [countPageBreaks] at ih1
      refine ⟨?_, ?_⟩
      · simp only [countPageBreaks]
        simp [appendItemsTrace, hc, thresholdCrossings, ih1]
        try omega
      · simp [appendItemsTrace, hc, breaksHeadered, ih2]

/-- C7: the pre-totals page-break decision of Build fires exactly when the
current cursor plus the totals block height (30, plus 15 more with a
document discount) exceeds the maximum page height; when it does not fire
the whole totals block fits below the threshold. -/
theorem c7_totals_block_page_break (maxH y : ℚ) (d : Bool) :
    (buildForcesPageBreak maxH y d = true ↔ y + totalsBlockHeight d > maxH)
    ∧ (buildForcesPageBreak maxH y d = false ↔ y + totalsBlockHeight d ≤ maxH) := by
  have hoff : buildTotalsOffset y d = y + totalsBlockHeight d := by
    cases d
    · simp [buildTotalsOffset, totalsBlockHeight]
    · simp [buildTotalsOffset, totalsBlockHeight]
      ring
  refine ⟨?_, ?_⟩
  · simp [buildForcesPageBreak, hoff]
  · simp [buildForcesPageBreak, hoff, not_lt]

/-- C8 counterexample: a document with an empty date field yields different
Build outputs at two different current times, so Build is not a function of
the document alone. -/
theorem c8_determinism_counterexample :
    build ⟨[⟨1, 0, none, none⟩], none, none, "", ""⟩ "01/01/2020" ≠
      build ⟨[⟨1, 0, none, none⟩], none, none, "", ""⟩ "02/01/2020" := by
  simp [build, Document.validate, appendMetasDate]

/-- C8 amended: Build is deterministic for documents whose date field is
non-empty; with an empty date the rendered metadata date falls back to the
formatted current time, so the output depends on the ambient clock. -/
theorem c8_build_deterministic_with_date
    (d : Document) (n1 n2 : String) (h : d.date.length > 0) :
    build d n1 = build d n2 := by
  unfold build
  cases hv : d.validate with
  | some e => simp
  | none => simp [appendMetasDate, h]

/-- C8 witness: a document carrying an explicit date builds identically at
two different current times. -/
theorem c8_build_deterministic_with_date_witness :
    (Document.mk [⟨1, 0, none, none⟩] none none "05/10/2026" "").date.length > 0
    ∧ build (Document.mk [⟨1, 0, none, none⟩] none none "05/10/2026" "") "01/01/2020" =
        build (Document.mk [⟨1, 0, none, none⟩] none none "05/10/2026" "") "02/01/2020" :=
  ⟨by decide,
    c8_build_deterministic_with_date
      (Document.mk [⟨1, 0, none, none⟩] none none "05/10/2026" "")
      "01/01/2020" "02/01/2020" (by decide)⟩

/-- C9: a document failing validation (empty item list) makes Build return
the validation error with no rendering-surface handle at all, before any
rendering data is produced. -/
theorem c9_validation_fails_fast (d : Document) (now : String)
    (h : d.items = []) :
    build d now = (none, some DocError.validationError) := by
  have hv : d.validate = some DocError.validationError := by
    simp [Document.validate, h]
  unfold build
  rw [hv]

/-- C9 witness: the empty-item document returns the validation error and no
handle. -/
theorem c9_validation_fails_fast_witness :
    (Document.mk [] none none "" "").items = []
    ∧ build (Document.mk [] none none "" "") "01/01/2020" =
        (none, some DocError.validationError) :=
  ⟨rfl, c9_validation_fails_fast (Document.mk [] none none "" "") "01/01/2020" rfl⟩

/-- C10: appendNotes leaves the vertical cursor unchanged: it saves the
entry cursor, renders the notes body below it, and restores the saved
cursor on exit (and returns at once for empty notes). -/
theorem c10_append_notes_preserves_cursor (notes : String) (htmlHeight y : ℚ) :
    appendNotesCursor notes htmlHeight y = y := by
  unfold appendNotesCursor
  split <;> rfl

end Generator
